import Mathlib

/-!
Verification development for the integration monitor of the camel-k operator
(`pkg/controller/integration/monitor.go`), shallowly embedded in Lean 4.

Kubernetes API objects are modelled by plain structures carrying exactly the
fields the monitor reads.  External collaborators (the object-store client,
the digest function, the HTTP probe proxy, the trait pipeline) are passed in
as explicit parameters or pre-computed results, mirroring the call sites.
String-valued constants (phases, condition types, reasons) mirror the Go
constants from the `v1` API package.
-/

namespace CamelK

/-! ## Constants (values of the `v1` API constants used by monitor.go) -/

def integrationPhaseDeploying : String := "Deploying"

def integrationPhaseRunning : String := "Running"

def integrationPhaseError : String := "Error"

def integrationKitPhaseReady : String := "Ready"

def integrationKitPhaseError : String := "Error"

def conditionTrue : String := "True"

def conditionFalse : String := "False"

def integrationConditionReady : String := "Ready"

def integrationConditionKitAvailable : String := "IntegrationKitAvailable"

def integrationConditionInitializationFailedReason : String := "InitializationFailed"

def integrationConditionErrorReason : String := "Error"

def integrationConditionRuntimeNotReadyReason : String := "RuntimeNotReady"

def integrationConditionMonitoringPodsAvailableReason : String := "MonitoringPodsAvailable"

def integrationLabel : String := "camel.apache.org/integration"

def healthCheckStatusUp : String := "UP"

/-! ## Pod-side data model (corev1 fields read by the monitor) -/

/-- corev1.PodCondition restricted to the fields the monitor reads. -/
structure PodCondition where
  type : String
  status : String
  reason : String
  message : String
deriving Repr, DecidableEq

/-- The zero value of corev1.PodCondition (all fields empty). -/
def PodCondition.zero : PodCondition :=
  { type := "", status := "", reason := "", message := "" }

structure ContainerStateWaiting where
  reason : String
  message : String
deriving Repr, DecidableEq

structure ContainerStateTerminated where
  reason : String
  message : String
deriving Repr, DecidableEq

/-- corev1.ContainerState: at most one of the pointers is normally set. -/
structure ContainerState where
  waiting : Option ContainerStateWaiting
  terminated : Option ContainerStateTerminated
deriving Repr, DecidableEq

structure ContainerStatus where
  state : ContainerState
deriving Repr, DecidableEq

/-- corev1.Container restricted to what `getIntegrationContainer` and the
probing code read: the name, and whether `ReadinessProbe != nil` with
`ReadinessProbe.HTTPGet != nil` (the probe's path/port are only consumed by
the external proxy call, so they are folded into the proxy parameter). -/
structure Container where
  name : String
  readinessProbeHTTPGet : Bool
deriving Repr, DecidableEq

/-- corev1.Pod restricted to the fields the monitor reads.
`deletionTimestamp` models `ObjectMeta.DeletionTimestamp` (only its
presence is inspected). -/
structure Pod where
  name : String
  namespaceName : String
  deletionTimestamp : Option String
  conditions : List PodCondition
  initContainerStatuses : List ContainerStatus
  containerStatuses : List ContainerStatus
  specContainers : List Container
deriving Repr, DecidableEq

/-- kubernetes.GetPodCondition: the first condition of the given type, if
any (the Go helper scans `pod.Status.Conditions` in order). -/
def getPodCondition (pod : Pod) (t : String) : Option PodCondition :=
  pod.conditions.find? (fun c => c.type == t)

/-! ## Integration-side data model -/

/-- v1.HealthCheck: one named check of a parsed health report. -/
structure HealthCheck where
  name : String
  status : String
deriving Repr, DecidableEq

/-- The body of a 503 probe response parsed by `NewHealthCheck`. -/
structure HealthCheckResponse where
  status : String
  checks : List HealthCheck
deriving Repr, DecidableEq

/-- v1.PodCondition (camel-k): the per-pod entry of the ready condition. -/
structure IntegrationPodCondition where
  name : String
  condition : PodCondition
  health : List HealthCheck
deriving Repr, DecidableEq

/-- v1.IntegrationCondition restricted to the fields monitor.go writes. -/
structure IntegrationCondition where
  type : String
  status : String
  reason : String
  message : String
  pods : List IntegrationPodCondition
deriving Repr, DecidableEq

/-- Reference to an IntegrationKit held in the Integration status. -/
structure KitRef where
  name : String
  namespaceName : String
deriving Repr, DecidableEq

/-- v1.IntegrationStatus restricted to the fields monitor.go touches. -/
structure IntegrationStatus where
  phase : String
  digest : String
  replicas : Option Nat
  selector : String
  conditions : List IntegrationCondition
  integrationKit : Option KitRef
deriving Repr, DecidableEq

/-- v1.Integration restricted to what monitor.go reads: metadata
(name/namespace and the three annotations the kit-reset policy compares)
and the status. -/
structure Integration where
  name : String
  namespaceName : String
  operatorID : String
  integrationProfile : String
  integrationProfileNamespace : String
  status : IntegrationStatus
deriving Repr, DecidableEq

/-- v1.IntegrationKit restricted to what monitor.go reads: metadata
(annotations compared by the kit-reset policy), the priority label
(`none` when the label is absent; a Go map lookup then yields `""`),
and the status phase. -/
structure IntegrationKit where
  name : String
  namespaceName : String
  operatorID : String
  integrationProfile : String
  integrationProfileNamespace : String
  priorityLabel : Option String
  phase : String
deriving Repr, DecidableEq

/-- v1.IntegrationStatus.GetCondition: first condition of the given type. -/
def IntegrationStatus.getCondition (s : IntegrationStatus) (t : String) :
    Option IntegrationCondition :=
  s.conditions.find? (fun c => c.type == t)

/-- Modelled from the spec: `SetConditions` overwrites the condition of the
same type when present and appends it otherwise; unrelated conditions are
kept ("each reconciliation pass may overwrite specific condition types but
must not lose unrelated ones").  The Go helper lives in the `v1` API
package, outside the provided sources. -/
def IntegrationStatus.setCondition (s : IntegrationStatus)
    (c : IntegrationCondition) : IntegrationStatus :=
  if s.conditions.any (fun c0 => c0.type == c.type) then
    { s with conditions :=
        s.conditions.map (fun c0 => if c0.type == c.type then c else c0) }
  else
    { s with conditions := s.conditions ++ [c] }

/-- Modelled from the spec: `SetReadyCondition` sets the ready condition
with the given status, reason and message (helper from the `v1` API
package, outside the provided sources). -/
def Integration.setReadyCondition (i : Integration) (status reason message : String) :
    Integration :=
  let c : IntegrationCondition :=
    { type := integrationConditionReady, status := status,
      reason := reason, message := message, pods := [] }
  { i with status := i.status.setCondition c }

/-- Modelled from the spec: `SetReadyConditionError` sets the ready
condition false with the error reason and the given message (helper from
the `v1` API package, outside the provided sources; the spec: "phase=Error
with the condition message copied from the offending status"). -/
def Integration.setReadyConditionError (i : Integration) (message : String) :
    Integration :=
  i.setReadyCondition conditionFalse integrationConditionErrorReason message

/-! ## Pod failure scan: `arePodsFailingStatuses` (monitor.go 416-466) -/

/-- First pending-pod check: a `PodScheduled` condition that is `False`
with reason `Unschedulable` (monitor.go 418-427). -/
def unschedulableMessage (pod : Pod) : Option String :=
  match getPodCondition pod "PodScheduled" with
  | some scheduled =>
    if scheduled.status == conditionFalse && scheduled.reason == "Unschedulable" then
      some scheduled.message
    else
      none
  | none => none

/-- Pending-pod check on one container: waiting with reason
`ImagePullBackOff` (monitor.go 433-439). -/
def imagePullContainerMessage (container : ContainerStatus) : Option String :=
  match container.state.waiting with
  | some waiting =>
    if waiting.reason == "ImagePullBackOff" then some waiting.message else none
  | none => none

/-- Second pending-pod check: some container (init statuses first, then
main, as the Go code appends them) waiting with reason `ImagePullBackOff`
(monitor.go 429-441). -/
def imagePullBackOffMessage (pod : Pod) : Option String :=
  (pod.initContainerStatuses ++ pod.containerStatuses).findSome? imagePullContainerMessage

/-- Running-pod check on one container: waiting `CrashLoopBackOff` is
checked before terminated `Error` (monitor.go 450-461). -/
def runningContainerFailureMessage (container : ContainerStatus) : Option String :=
  match container.state.waiting with
  | some waiting =>
    if waiting.reason == "CrashLoopBackOff" then
      some waiting.message
    else
      match container.state.terminated with
      | some terminated =>
        if terminated.reason == "Error" then some terminated.message else none
      | none => none
  | none =>
    match container.state.terminated with
    | some terminated =>
      if terminated.reason == "Error" then some terminated.message else none
    | none => none

/-- Running-pod check: terminating pods (deletion timestamp set) are
skipped; otherwise the first failing container wins (monitor.go 443-463). -/
def runningPodFailureMessage (pod : Pod) : Option String :=
  match pod.deletionTimestamp with
  | some _ => none
  | none =>
    (pod.initContainerStatuses ++ pod.containerStatuses).findSome?
      runningContainerFailureMessage

/-- monitor.go 416-466.  Scans the three failure signals in source order;
on the first hit sets phase=Error and the ready condition error with the
offending status message and returns true; otherwise returns false with
the integration untouched.  The Go function mutates `integration` in
place; here the (possibly updated) integration is returned alongside the
boolean. -/
def arePodsFailingStatuses (integration : Integration)
    (pendingPods runningPods : List Pod) : Bool × Integration :=
  match pendingPods.findSome? unschedulableMessage with
  | some msg =>
    (true, Integration.setReadyConditionError
      { integration with status := { integration.status with phase := integrationPhaseError } } msg)
  | none =>
  match pendingPods.findSome? imagePullBackOffMessage with
  | some msg =>
    (true, Integration.setReadyConditionError
      { integration with status := { integration.status with phase := integrationPhaseError } } msg)
  | none =>
  match runningPods.findSome? runningPodFailureMessage with
  | some msg =>
    (true, Integration.setReadyConditionError
      { integration with status := { integration.status with phase := integrationPhaseError } } msg)
  | none => (false, integration)

/-! ## Kit priority selection: `findHighestPriorityReadyKit` (monitor.go 594-614) -/

/-- strconv.Atoi: optional sign followed by at least one decimal digit.
(The Go function additionally rejects values outside the 64-bit range;
that bound is not modelled, the priorities of interest being small.) -/
def atoi? (s : String) : Option Int :=
  match s.data with
  | [] => none
  | c :: rest =>
    let signNeg : Bool := c == '-'
    let digits : List Char := if c == '-' || c == '+' then rest else c :: rest
    if digits.isEmpty then none
    else if digits.all Char.isDigit then
      let n : Nat := digits.foldl (fun acc d => acc * 10 + (d.toNat - '0'.toNat)) 0
      some (if signNeg then -(n : Int) else (n : Int))
    else none

/-- The priority label of a kit as read through a Go map lookup:
`""` when absent (monitor.go 604 `k.Labels[v1.IntegrationKitPriorityLabel]`). -/
def IntegrationKit.priorityString (k : IntegrationKit) : String :=
  k.priorityLabel.getD ""

/-- The loop of `findHighestPriorityReadyKit` (monitor.go 600-612): non-ready
kits are skipped before parsing; a parse failure on a ready kit aborts with
the error; a strictly greater parsed priority replaces the current best. -/
def findKitLoop : List IntegrationKit → Option IntegrationKit → Int →
    Except String (Option IntegrationKit)
  | [], best, _ => .ok best
  | k :: rest, best, priority =>
    if k.phase != integrationKitPhaseReady then
      findKitLoop rest best priority
    else
      match atoi? k.priorityString with
      | none => .error ("invalid syntax parsing priority: " ++ k.priorityString)
      | some p =>
        if p > priority then findKitLoop rest (some k) p
        else findKitLoop rest best priority

/-- monitor.go 594-614: zero candidates yield no selection and no error;
otherwise the loop runs from no best kit and priority 0. -/
def findHighestPriorityReadyKit (kits : List IntegrationKit) :
    Except String (Option IntegrationKit) :=
  if kits.isEmpty then .ok none
  else findKitLoop kits none 0

/-! ## Readiness probing: `probeReadiness` (monitor.go 470-592) -/

/-- Outcome of the external `proxyGetHTTPProbe` call, as classified by the
probing code: no error; a `context.DeadlineExceeded` error; some other
non-503 error (with its message); or a 503 Service Unavailable whose body
is handed to `NewHealthCheck` — that JSON parse is external too, so the
constructor directly carries its result. -/
inductive ProbeOutcome where
  | noError
  | deadlineExceeded
  | otherError (msg : String)
  | serviceUnavailable (parsed : Except String HealthCheckResponse)

/-- getIntegrationContainer (monitor.go 616-624): the first container of
the pod spec whose name is the environment's integration container name. -/
def getIntegrationContainer (containerName : String) (pod : Pod) : Option Container :=
  pod.specContainers.find? (fun c => c.name == containerName)

/-- The mutable state threaded through the pod loop of `probeReadiness`:
the per-pod entries of the ready condition built so far (in pod order) and
the counters/flags of monitor.go 478-483. -/
structure ProbeState where
  entries : List IntegrationPodCondition
  readyPods : Nat
  unreadyPods : Nat
  runtimeReady : Bool
  runtimeFailed : Bool
deriving Repr, DecidableEq

def ProbeState.initial : ProbeState :=
  { entries := [], readyPods := 0, unreadyPods := 0,
    runtimeReady := true, runtimeFailed := false }

/-- Result of the pod loop.  `panic` is the nil-pointer dereference at
monitor.go 495: `kubernetes.GetPodCondition` returns nil when the pod has
no `Ready` condition and its `.Status` field is read unguarded.  `fail`
is an early `return readyPods, false, err`. -/
inductive ProbeLoopResult where
  | panic
  | fail (readyPods : Nat) (msg : String)
  | done (st : ProbeState)

/-- Outcome of one iteration of the pod loop: the nil dereference, an
early return, or the state handed to the next iteration. -/
inductive StepResult where
  | panic
  | fail (readyPods : Nat) (msg : String)
  | next (st : ProbeState)

/-- monitor.go 487-493: the per-pod entry of the ready condition, with the
pod's Ready condition copied when found (the Go zero value otherwise). -/
def podEntry (pod : Pod) : IntegrationPodCondition :=
  { name := pod.name,
    condition := (getPodCondition pod "Ready").getD PodCondition.zero,
    health := [] }

/-- One iteration of the pod loop of `probeReadiness`
(monitor.go 485-574).  `proxy` stands for `proxyGetHTTPProbe`. -/
def probeStep (containerName : String) (proxy : Pod → ProbeOutcome)
    (pod : Pod) (st : ProbeState) : StepResult :=
  -- monitor.go 495: unguarded dereference of GetPodCondition(pod, PodReady)
  match getPodCondition pod "Ready" with
  | none => .panic
  | some ready =>
    if ready.status == conditionTrue then
      .next { st with
        entries := st.entries ++ [podEntry pod],
        readyPods := st.readyPods + 1 }
    else
      let st1 : ProbeState := { st with unreadyPods := st.unreadyPods + 1 }
      match getIntegrationContainer containerName pod with
      | none =>
        .fail st1.readyPods
          ("integration container not found in Pod " ++ pod.namespaceName ++ "/" ++ pod.name)
      | some container =>
        if container.readinessProbeHTTPGet then
          match proxy pod with
          | .noError =>
            -- monitor.go 544-546: pod merely still warming up
            .next { st1 with entries := st1.entries ++ [podEntry pod] }
          | .deadlineExceeded =>
            let entry : IntegrationPodCondition :=
              { podEntry pod with condition :=
                  { (podEntry pod).condition with message :=
                      "readiness probe timed out for Pod " ++ pod.namespaceName ++ "/" ++ pod.name } }
            .next { st1 with
        entries := st1.entries ++ [entry],
        runtimeReady := false }
          | .otherError msg =>
            let entry : IntegrationPodCondition :=
              { podEntry pod with condition :=
                  { (podEntry pod).condition with message :=
                      "readiness probe failed for Pod " ++ pod.namespaceName ++ "/" ++ pod.name
                        ++ ": " ++ msg } }
            .next { st1 with
        entries := st1.entries ++ [entry],
        runtimeReady := false }
          | .serviceUnavailable parsed =>
            match parsed with
            | .error e => .fail st1.readyPods e
            | .ok health =>
              -- monitor.go 563-572: every check not reporting UP is recorded
              let downs : List HealthCheck :=
                health.checks.filter (fun check => !(check.status == healthCheckStatusUp))
              let entry : IntegrationPodCondition := { podEntry pod with health := downs }
              .next { st1 with
                      entries := st1.entries ++ [entry],
                      runtimeReady := if downs.isEmpty then st1.runtimeReady else false,
                      runtimeFailed := if downs.isEmpty then st1.runtimeFailed else true }
        else
          .next { st1 with entries := st1.entries ++ [podEntry pod] }

/-- The pod loop of `probeReadiness`: iterate `probeStep` until the list
is exhausted, an early return fires, or the nil dereference hits. -/
def probeLoop (containerName : String) (proxy : Pod → ProbeOutcome) :
    List Pod → ProbeState → ProbeLoopResult
  | [], st => .done st
  | pod :: rest, st =>
    match probeStep containerName proxy pod st with
    | .panic => .panic
    | .fail readyPods msg => .fail readyPods msg
    | .next st1 => probeLoop containerName proxy rest st1

/-- Result of `probeReadiness`: the Go triple `(readyPods, probeOk, err)`
plus the (possibly updated) integration; `st` exposes the loop state so
the flags of monitor.go 481-482 can be referred to in specifications. -/
inductive ProbeResult where
  | panic
  | fail (readyPods : Nat) (msg : String)
  | ok (readyPods : Nat) (probeOk : Bool) (integration : Integration) (st : ProbeState)

/-- monitor.go 470-592: run the pod loop, then the two final condition
blocks (576-589).  Note both blocks run in sequence: when `runtimeFailed`
holds, the error-reason condition is set and then overwritten by the
runtime-not-ready condition, since `runtimeFailed` is only ever set
together with `runtimeReady = false`. -/
def probeReadiness (containerName : String) (proxy : Pod → ProbeOutcome)
    (integration : Integration) (pods : List Pod) : ProbeResult :=
  match probeLoop containerName proxy pods ProbeState.initial with
  | .panic => .panic
  | .fail readyPods msg => .fail readyPods msg
  | .done st =>
    let notReadyMessage : String :=
      toString st.unreadyPods ++ "/" ++ toString (st.unreadyPods + st.readyPods)
        ++ " pods are not ready"
    let cond0 : IntegrationCondition :=
      { type := integrationConditionReady, status := conditionTrue,
        reason := "", message := "", pods := st.entries }
    let r1 : Bool × IntegrationCondition × Integration :=
      if st.runtimeFailed then
        let cond1 : IntegrationCondition :=
          { cond0 with
            reason := integrationConditionErrorReason,
            status := conditionFalse,
            message := notReadyMessage }
        (false, cond1, { integration with status := integration.status.setCondition cond1 })
      else
        (true, cond0, integration)
    let r2 : Bool × Integration :=
      if !st.runtimeReady then
        let cond2 : IntegrationCondition :=
          { r1.2.1 with
            reason := integrationConditionRuntimeNotReadyReason,
            status := conditionFalse,
            message := notReadyMessage }
        (false, { r1.2.2 with status := r1.2.2.status.setCondition cond2 })
      else
        (r1.1, r1.2.2)
    .ok st.readyPods r2.1 r2.2 st

/-! ## Phase predicates (monitor.go 210-233) -/

/-- monitor.go 210-222: phase Error with a ready condition that is false
for the initialization-failed reason. -/
def isInInitializationFailed (status : IntegrationStatus) : Bool :=
  if status.phase != integrationPhaseError then
    false
  else
    match status.getCondition integrationConditionReady with
    | some cond =>
      cond.status == conditionFalse
        && cond.reason == integrationConditionInitializationFailedReason
    | none => false

/-- monitor.go 224-233: a kit-available condition that is false while the
phase is NOT Error.  (Note the guard is `status.Phase !=
v1.IntegrationPhaseError`, although the caller's comment reads "If
integration is in error and its kit is also in error then integration
does not change".) -/
def isInIntegrationKitFailed (status : IntegrationStatus) : Bool :=
  match status.getCondition integrationConditionKitAvailable with
  | some cond =>
    cond.status == conditionFalse && status.phase != integrationPhaseError
  | none => false

/-! ## Digest check: `checkDigestAndRebuild` (monitor.go 235-283) -/

/-- monitor.go 256-283: the kit reference must be reset when one of the
three identity annotations is set on the integration and differs from the
kit's. -/
def isIntegrationKitResetRequired (integration : Integration)
    (kit : Option IntegrationKit) : Bool :=
  match kit with
  | none => false
  | some kit =>
    (integration.operatorID != "" && integration.operatorID != kit.operatorID)
      || (integration.integrationProfile != ""
            && integration.integrationProfile != kit.integrationProfile)
      || (integration.integrationProfileNamespace != ""
            && integration.integrationProfileNamespace != kit.integrationProfileNamespace)

/-- Modelled from the spec: `Integration.Initialize` (a `v1` API helper
outside the provided sources) resets the Integration status to its initial
state ("reset Integration to its initial state"), keeping the kit
reference as already adjusted by the caller. -/
def Integration.initialize (i : Integration) : Integration :=
  { i with status :=
      { phase := "", digest := i.status.digest, replicas := none,
        selector := "", conditions := [], integrationKit := i.status.integrationKit } }

/-- monitor.go 235-254.  The digest computation
(`digest.ComputeForIntegration` over the spec and the watched
secret/configmap resource versions) is external; its result is passed in
as `digestResult`.  Returns the Go pair `(*Integration, error)`. -/
def checkDigestAndRebuild (digestResult : Except String String)
    (integration : Integration) (kit : Option IntegrationKit) :
    Option Integration × Option String :=
  match digestResult with
  | .error e => (none, some e)
  | .ok hash =>
    if hash != integration.status.digest then
      let i1 : Integration :=
        if isIntegrationKitResetRequired integration kit then
          { integration with status := { integration.status with integrationKit := none } }
        else
          integration
      let i2 : Integration := i1.initialize
      (some { i2 with status := { i2.status with digest := hash } }, none)
    else
      (none, none)

/-! ## Workload controller abstraction (monitor.go 326-385) -/

/-- The `controller` interface of monitor.go 326-332, as resolved by
`newController`: the concrete variant behaviors are captured by the
fields' values. -/
structure Controller where
  hasTemplateIntegrationLabel : Bool
  controllerName : String
  /-- `checkReadyCondition(ctx) (bool, error)` as a pre-determined pair. -/
  checkReadyCondition : Bool × Option String
  updateReadyCondition : Nat → Bool

/-- Result of `monitorPods`/`Handle`-style steps returning
`(*Integration, error)`; `panic` propagates the nil dereference of
`probeReadiness`. -/
inductive MonitorResult where
  | panic
  | err (msg : String)
  | ok (integration : Integration)

/-- monitor.go 387-414: the readiness reconciliation.  When the controller
short-circuits (`done` or error), `probeReadiness` still runs for
observability — its error is ignored but its condition updates are kept —
and the controller's error (possibly nil) is returned.  Otherwise the pod
failure scan, then the probe, then the variant threshold test decide the
phase. -/
def updateIntegrationPhaseAndReadyCondition (ctrl : Controller)
    (containerName : String) (proxy : Pod → ProbeOutcome)
    (integration : Integration) (pendingPods runningPods : List Pod) : MonitorResult :=
  let checkReady := ctrl.checkReadyCondition
  if checkReady.1 || checkReady.2.isSome then
    -- monitor.go 391-396: probe for observability only, ignoring its
    -- error (its condition updates persist), then return the
    -- controller's error (possibly nil).
    match probeReadiness containerName proxy integration runningPods with
    | .panic => .panic
    | .fail _ _ =>
      match checkReady.2 with
      | some e => .err e
      | none => .ok integration
    | .ok _ _ i1 _ =>
      match checkReady.2 with
      | some e => .err e
      | none => .ok i1
  else
    match arePodsFailingStatuses integration pendingPods runningPods with
    | (true, i1) => .ok i1
    | (false, i1) =>
      match probeReadiness containerName proxy i1 runningPods with
      | .panic => .panic
      | .fail _ e => .err e
      | .ok readyPods probeOk i2 _ =>
        if !probeOk then
          .ok { i2 with status := { i2.status with phase := integrationPhaseError } }
        else if ctrl.updateReadyCondition readyPods then
          .ok { i2 with status := { i2.status with phase := integrationPhaseRunning } }
        else
          .ok i2

/-- monitor.go 137-208.  The controller resolution (`newController`) and
the two pod list calls are external; they are passed in as the resolved
`Controller` and the pending/running pod lists.  When the workload
template lacks the integration label, only the ready condition is set and
the integration is returned with no error; otherwise the selector,
replica count and (for Deploying) phase are updated before the readiness
reconciliation. -/
def monitorPods (ctrl : Controller) (containerName : String)
    (proxy : Pod → ProbeOutcome) (integration : Integration)
    (pendingPods runningPods : List Pod) : MonitorResult :=
  if !ctrl.hasTemplateIntegrationLabel then
    let c : IntegrationCondition :=
      { type := integrationConditionReady,
        status := conditionFalse,
        reason := integrationConditionMonitoringPodsAvailableReason,
        message :=
          "Could not find `camel.apache.org/integration: " ++ integration.name
            ++ "` label in the " ++ ctrl.controllerName
            ++ " template. Make sure to include this label in the template for Pod monitoring purposes.",
        pods := [] }
    .ok { integration with status := integration.status.setCondition c }
  else
    let i1 : Integration :=
      { integration with status :=
          { integration.status with
            selector := integrationLabel ++ "=" ++ integration.name } }
    let nonTerminatingPods : Nat :=
      (runningPods.filter (fun pod => pod.deletionTimestamp == none)).length
    let podCount : Nat := pendingPods.length + nonTerminatingPods
    let i2 : Integration :=
      { i1 with status := { i1.status with replicas := some podCount } }
    let i3 : Integration :=
      if i2.status.phase == integrationPhaseDeploying then
        { i2 with status := { i2.status with phase := integrationPhaseRunning } }
      else
        i2
    updateIntegrationPhaseAndReadyCondition ctrl containerName proxy i3 pendingPods runningPods

/-! ## Top-level `Handle` (monitor.go 67-135) -/

/-- The external collaborators `Handle` calls, pre-resolved: the kit
lookup, the digest computation, the higher-priority kit listing (keyed by
the current kit's priority string), the trait pipeline (whose relevant
output is the environment's integration container name), the controller
resolution, the two pod lists and the probe proxy. -/
structure World where
  getKit : KitRef → Except String IntegrationKit
  computeDigest : Except String String
  lookupKits : String → Except String (List IntegrationKit)
  traitApply : Except String String
  newController : Except String Controller
  pendingPods : List Pod
  runningPods : List Pod
  proxy : Pod → ProbeOutcome

/-- `Handle` returns `(*v1.Integration, error)`; `panic` propagates the
nil dereference of `probeReadiness`. -/
inductive HandleResult where
  | panic
  | res (integration : Option Integration) (err : Option String)

/-- Modelled from the spec: `SetIntegrationKit` stores the kit reference
in the status ("switch the Integration's kit reference"; `v1` API helper
outside the provided sources). -/
def Integration.setIntegrationKit (i : Integration) (kit : IntegrationKit) : Integration :=
  let ref : KitRef := { name := kit.name, namespaceName := kit.namespaceName }
  { i with status := { i.status with integrationKit := some ref } }

/-- monitor.go 67-135, with `monitorPods` inlined for the final step. -/
def handle (w : World) (integration : Integration) : HandleResult :=
  if isInInitializationFailed integration.status then
    match checkDigestAndRebuild w.computeDigest integration none with
    | (i, e) => .res i e
  else
    match integration.status.integrationKit with
    | none => .res none (some ("no kit set on integration " ++ integration.name))
    | some ref =>
      match w.getKit ref with
      | .error e =>
        .res none (some ("unable to find integration kit " ++ ref.namespaceName
          ++ "/" ++ ref.name ++ ": " ++ e))
      | .ok kit =>
        if isInIntegrationKitFailed integration.status
            && kit.phase == integrationKitPhaseError then
          .res none none
        else
          match checkDigestAndRebuild w.computeDigest integration (some kit) with
          | (_, some e) => .res none (some e)
          | (some changed, none) => .res (some changed) none
          | (none, none) =>
            let priority : String := kit.priorityLabel.getD "0"
            match w.lookupKits priority with
            | .error e => .res none (some e)
            | .ok kits =>
              match findHighestPriorityReadyKit kits with
              | .error e => .res none (some e)
              | .ok priorityReadyKit =>
                let integration :=
                  match priorityReadyKit with
                  | some k => integration.setIntegrationKit k
                  | none => integration
                match w.traitApply with
                | .error e =>
                  let i1 : Integration :=
                    { integration with status :=
                        { integration.status with phase := integrationPhaseError } }
                  .res (some (i1.setReadyCondition conditionFalse
                    integrationConditionInitializationFailedReason e)) (some e)
                | .ok containerName =>
                  match w.newController with
                  | .error e => .res none (some e)
                  | .ok ctrl =>
                    match monitorPods ctrl containerName w.proxy integration
                        w.pendingPods w.runningPods with
                    | .panic => .panic
                    | .err e => .res none (some e)
                    | .ok i => .res (some i) none

/-! ## Projections used in statements -/

def ProbeResult.probeOkOf : ProbeResult → Option Bool
  | .ok _ probeOk _ _ => some probeOk
  | _ => none

def ProbeResult.integrationOf : ProbeResult → Option Integration
  | .ok _ _ i _ => some i
  | _ => none

def HandleResult.integrationOf : HandleResult → Option Integration
  | .res i _ => i
  | .panic => none

def HandleResult.errOf : HandleResult → Option (Option String)
  | .res _ e => some e
  | .panic => none

/-! ## Spec-side classification predicate for the pod failure scan -/

/-- The fatal pod signals, stated structurally: for a pending pod a
`PodScheduled=False/Unschedulable` condition or a container waiting in
`ImagePullBackOff`; for a non-terminating running pod a container waiting
in `CrashLoopBackOff` or terminated with reason `Error`. -/
def podsFatalSignal (pendingPods runningPods : List Pod) : Prop :=
  (∃ p ∈ pendingPods, ∃ c, getPodCondition p "PodScheduled" = some c ∧
      c.status = conditionFalse ∧ c.reason = "Unschedulable")
    ∨ (∃ p ∈ pendingPods, ∃ cs ∈ p.initContainerStatuses ++ p.containerStatuses,
        ∃ w, cs.state.waiting = some w ∧ w.reason = "ImagePullBackOff")
    ∨ (∃ p ∈ runningPods, p.deletionTimestamp = none ∧
        ∃ cs ∈ p.initContainerStatuses ++ p.containerStatuses,
          (∃ w, cs.state.waiting = some w ∧ w.reason = "CrashLoopBackOff")
            ∨ (∃ t, cs.state.terminated = some t ∧ t.reason = "Error"))

/-! ## Concrete sample inputs used in closed statements -/

/-- A plain Integration in phase Running with an assigned kit. -/
def sampleIntegration : Integration :=
  { name := "it", namespaceName := "ns", operatorID := "", integrationProfile := "",
    integrationProfileNamespace := "",
    status := { phase := "Running", digest := "d0", replicas := none, selector := "",
                conditions := [], integrationKit := some { name := "k", namespaceName := "ns" } } }

/-- The sample Integration in phase Deploying. -/
def deployingIntegration : Integration :=
  { sampleIntegration with status :=
      { sampleIntegration.status with phase := "Deploying" } }

/-- A pending pod whose only failure signal is a container waiting in
`CrashLoopBackOff`. -/
def crashLoopPendingPod : Pod :=
  { name := "p1", namespaceName := "ns", deletionTimestamp := none,
    conditions := [{ type := "Ready", status := "False", reason := "", message := "" }],
    initContainerStatuses := [],
    containerStatuses :=
      [{ state := { waiting := some { reason := "CrashLoopBackOff", message := "back-off restarting" },
                    terminated := none } }],
    specContainers := [] }

/-- A pending pod that is unschedulable. -/
def unschedulablePod : Pod :=
  { name := "p2", namespaceName := "ns", deletionTimestamp := none,
    conditions := [{ type := "PodScheduled", status := "False", reason := "Unschedulable",
                     message := "0/3 nodes are available" }],
    initContainerStatuses := [], containerStatuses := [], specContainers := [] }

/-- A non-ready pod carrying the integration container with an HTTP
readiness probe. -/
def unreadyProbedPod : Pod :=
  { name := "p1", namespaceName := "ns", deletionTimestamp := none,
    conditions := [{ type := "Ready", status := "False", reason := "", message := "" }],
    initContainerStatuses := [], containerStatuses := [],
    specContainers := [{ name := "integration", readinessProbeHTTPGet := true }] }

/-- A running pod already in `Ready=True`. -/
def readyPod : Pod :=
  { name := "p1", namespaceName := "ns", deletionTimestamp := none,
    conditions := [{ type := "Ready", status := "True", reason := "", message := "" }],
    initContainerStatuses := [], containerStatuses := [],
    specContainers := [{ name := "integration", readinessProbeHTTPGet := true }] }

/-- A probe proxy answering 503 with a body of one DOWN check. -/
def downCheckProxy : Pod → ProbeOutcome := fun _ =>
  .serviceUnavailable (.ok { status := "DOWN", checks := [{ name := "x", status := "DOWN" }] })

/-- A probe proxy whose call exceeds the context deadline. -/
def deadlineProxy : Pod → ProbeOutcome := fun _ => .deadlineExceeded

/-- A probe proxy returning no error. -/
def quietProxy : Pod → ProbeOutcome := fun _ => .noError

/-- A Deployment-style controller: template label present, no
short-circuit, at least one ready pod required. -/
def deployController : Controller :=
  { hasTemplateIntegrationLabel := true, controllerName := "Deployment",
    checkReadyCondition := (false, none),
    updateReadyCondition := fun n => decide (1 ≤ n) }

/-- The same controller with the integration label missing from the
workload template. -/
def unlabeledController : Controller :=
  { deployController with hasTemplateIntegrationLabel := false }

/-- A ready kit with the given name and priority label. -/
def readyKit (name priority : String) : IntegrationKit :=
  { name := name, namespaceName := "ns", operatorID := "", integrationProfile := "",
    integrationProfileNamespace := "", priorityLabel := some priority, phase := "Ready" }

/-- An Integration in phase Error whose kit-available condition is false
(the shape the stable-error comment of monitor.go 87 describes). -/
def kitFailedErrorIntegration : Integration :=
  { name := "it", namespaceName := "ns", operatorID := "", integrationProfile := "",
    integrationProfileNamespace := "",
    status := { phase := "Error", digest := "old", replicas := none, selector := "",
                conditions := [{ type := "IntegrationKitAvailable", status := "False",
                                 reason := "", message := "", pods := [] }],
                integrationKit := some { name := "k", namespaceName := "ns" } } }

/-- The resolved kit of `kitFailedErrorIntegration`, in phase Error. -/
def errorPhaseKit : IntegrationKit :=
  { name := "k", namespaceName := "ns", operatorID := "", integrationProfile := "",
    integrationProfileNamespace := "", priorityLabel := none, phase := "Error" }

/-- A world where the kit resolves to `errorPhaseKit` and the freshly
computed digest differs from the stored one. -/
def kitFailedWorld : World :=
  { getKit := fun _ => .ok errorPhaseKit,
    computeDigest := .ok "new",
    lookupKits := fun _ => .ok [],
    traitApply := .ok "integration",
    newController := .ok deployController,
    pendingPods := [], runningPods := [],
    proxy := quietProxy }

/-! ## Shorthands for probe outcomes used in statements -/

/-- The entry written for a non-ready pod whose probe timed out. -/
def timeoutEntry (p : Pod) (c : PodCondition) : IntegrationPodCondition :=
  { name := p.name,
    condition := { c with message :=
      "readiness probe timed out for Pod " ++ p.namespaceName ++ "/" ++ p.name },
    health := [] }

/-- The entry written for a non-ready pod whose 503 body parsed to
`health`: the DOWN checks are attached. -/
def downEntry (p : Pod) (c : PodCondition) (health : HealthCheckResponse) :
    IntegrationPodCondition :=
  { name := p.name, condition := c,
    health := health.checks.filter (fun check => !(check.status == healthCheckStatusUp)) }

/-- Loop state after one unready pod producing entry `e`. -/
def oneUnreadyState (e : IntegrationPodCondition) (failed : Bool) : ProbeState :=
  { entries := [e], readyPods := 0, unreadyPods := 1,
    runtimeReady := false, runtimeFailed := failed }

/-- The false ready condition written for one unready pod out of one. -/
def oneUnreadyCondition (reason : String) (e : IntegrationPodCondition) :
    IntegrationCondition :=
  { type := integrationConditionReady, status := conditionFalse,
    reason := reason, message := "1/1 pods are not ready", pods := [e] }

/-- Integration after the final not-ready block wrote one condition. -/
def oneUnreadySet (i : Integration) (reason : String)
    (e : IntegrationPodCondition) : Integration :=
  { i with status := i.status.setCondition (oneUnreadyCondition reason e) }

/-- Integration after both final blocks wrote: first the error-reason
condition, then the runtime-not-ready one on top of it. -/
def twoUnreadySet (i : Integration) (e : IntegrationPodCondition) : Integration :=
  let s1 := i.status.setCondition (oneUnreadyCondition integrationConditionErrorReason e)
  let s2 := s1.setCondition (oneUnreadyCondition integrationConditionRuntimeNotReadyReason e)
  { i with status := s2 }

/-- The per-pod condition under which one iteration of the probe loop
neither panics nor returns early: the pod carries a `Ready` condition,
and — when it is not ready — the integration container is present in its
spec and, if an HTTP readiness probe is declared and the proxy answers
503, the body parses as a health report. -/
def stepCompletes (cn : String) (proxy : Pod → ProbeOutcome) (p : Pod) : Bool :=
  match getPodCondition p "Ready" with
  | none => false
  | some c =>
    if c.status == conditionTrue then true
    else
      match getIntegrationContainer cn p with
      | none => false
      | some ct =>
        if ct.readinessProbeHTTPGet then
          match proxy p with
          | .serviceUnavailable (.error _) => false
          | _ => true
        else true

/-- The `unready/total` message of monitor.go 580 and 587. -/
def notReadyMsg (st : ProbeState) : String :=
  toString st.unreadyPods ++ "/" ++ toString (st.unreadyPods + st.readyPods)
    ++ " pods are not ready"

/-- The Integration after both final condition blocks of monitor.go
576-589 ran on loop state `st`: the error-reason condition is written and
then overwritten by the runtime-not-ready one. -/
def failedReadySet (i : Integration) (st : ProbeState) : Integration :=
  let cond1 : IntegrationCondition :=
    { type := integrationConditionReady, status := conditionFalse,
      reason := integrationConditionErrorReason,
      message := notReadyMsg st, pods := st.entries }
  let cond2 : IntegrationCondition :=
    { type := integrationConditionReady, status := conditionFalse,
      reason := integrationConditionRuntimeNotReadyReason,
      message := notReadyMsg st, pods := st.entries }
  { i with status := (i.status.setCondition cond1).setCondition cond2 }

/-! ## Helper lemmas -/

theorem find_map_replace (l : List IntegrationCondition) (c : IntegrationCondition)
    (h : l.any (fun c0 => c0.type == c.type) = true) :
    (l.map (fun c0 => if c0.type == c.type then c else c0)).find?
      (fun c0 => c0.type == c.type) = some c := by
  induction l with
  | nil => simp at h
  | cons a l ih =>
    simp only [List.map]
    by_cases ha : (a.type == c.type) = true
    · rw [if_pos ha, List.find?_cons_of_pos _ (by simp)]
    · simp only [List.any_cons, Bool.or_eq_true] at h
      have h' := h.resolve_left (by simpa using ha)
      rw [if_neg ha, List.find?_cons_of_neg _ (by simpa using ha)]
      exact ih h'

theorem find_append_new (l : List IntegrationCondition) (c : IntegrationCondition)
    (h : l.any (fun c0 => c0.type == c.type) = false) :
    (l ++ [c]).find? (fun c0 => c0.type == c.type) = some c := by
  induction l with
  | nil => simp [List.find?]
  | cons a l ih =>
    simp only [List.any_cons, Bool.or_eq_false_iff] at h
    simp only [List.cons_append, List.find?, h.1]
    exact ih h.2

/-- After `setCondition c`, the first condition of type `c.type` is `c`. -/
theorem getCondition_setCondition (s : IntegrationStatus) (c : IntegrationCondition) :
    (s.setCondition c).getCondition c.type = some c := by
  unfold IntegrationStatus.setCondition IntegrationStatus.getCondition
  by_cases h : s.conditions.any (fun c0 => c0.type == c.type) = true
  · simp only [h, if_true]
    exact find_map_replace s.conditions c h
  · simp only [Bool.not_eq_true] at h
    simp only [h, Bool.false_eq_true, if_false]
    exact find_append_new s.conditions c h

/-- `setCondition` changes only the `conditions` field of the status. -/
theorem setCondition_only_conditions (s : IntegrationStatus) (c : IntegrationCondition) :
    s.setCondition c = { s with conditions := (s.setCondition c).conditions } := by
  unfold IntegrationStatus.setCondition
  split <;> rfl

/-! ## C1: pod failure scan classification -/

theorem unschedulableMessage_isSome (p : Pod) :
    (unschedulableMessage p).isSome = true ↔
      ∃ c, getPodCondition p "PodScheduled" = some c ∧
        c.status = conditionFalse ∧ c.reason = "Unschedulable" := by
  unfold unschedulableMessage
  cases h : getPodCondition p "PodScheduled" with
  | none => simp [h]
  | some c =>
    dsimp only
    split <;> simp_all [Bool.and_eq_true, beq_iff_eq]

theorem imagePullContainerMessage_isSome (cs : ContainerStatus) :
    (imagePullContainerMessage cs).isSome = true ↔
      ∃ w, cs.state.waiting = some w ∧ w.reason = "ImagePullBackOff" := by
  unfold imagePullContainerMessage
  cases h : cs.state.waiting with
  | none => simp [h]
  | some w =>
    dsimp only
    split <;> simp_all [beq_iff_eq]

theorem imagePullBackOffMessage_isSome (p : Pod) :
    (imagePullBackOffMessage p).isSome = true ↔
      ∃ cs ∈ p.initContainerStatuses ++ p.containerStatuses,
        ∃ w, cs.state.waiting = some w ∧ w.reason = "ImagePullBackOff" := by
  unfold imagePullBackOffMessage
  simp [List.findSome?_isSome_iff, imagePullContainerMessage_isSome]

theorem runningContainerFailureMessage_isSome (cs : ContainerStatus) :
    (runningContainerFailureMessage cs).isSome = true ↔
      (∃ w, cs.state.waiting = some w ∧ w.reason = "CrashLoopBackOff")
        ∨ (∃ t, cs.state.terminated = some t ∧ t.reason = "Error") := by
  unfold runningContainerFailureMessage
  cases hw : cs.state.waiting with
  | none =>
    cases ht : cs.state.terminated with
    | none => simp [hw, ht]
    | some t =>
      dsimp only
      split <;> simp_all [beq_iff_eq]
  | some w =>
    dsimp only
    by_cases hc : (w.reason == "CrashLoopBackOff") = true
    · rw [if_pos hc]
      simp_all [beq_iff_eq]
    · rw [if_neg hc]
      cases ht : cs.state.terminated with
      | none => simp_all [beq_iff_eq]
      | some t =>
        split <;> simp_all [beq_iff_eq]

theorem runningPodFailureMessage_isSome (p : Pod) :
    (runningPodFailureMessage p).isSome = true ↔
      p.deletionTimestamp = none ∧
        ∃ cs ∈ p.initContainerStatuses ++ p.containerStatuses,
          (∃ w, cs.state.waiting = some w ∧ w.reason = "CrashLoopBackOff")
            ∨ (∃ t, cs.state.terminated = some t ∧ t.reason = "Error") := by
  unfold runningPodFailureMessage
  cases hd : p.deletionTimestamp with
  | some d => simp [hd]
  | none =>
    simp [List.findSome?_isSome_iff, runningContainerFailureMessage_isSome]

theorem podsFatalSignal_iff (pending running : List Pod) :
    podsFatalSignal pending running ↔
      ((pending.findSome? unschedulableMessage).isSome = true
        ∨ (pending.findSome? imagePullBackOffMessage).isSome = true
        ∨ (running.findSome? runningPodFailureMessage).isSome = true) := by
  unfold podsFatalSignal
  simp only [List.findSome?_isSome_iff, unschedulableMessage_isSome,
    imagePullBackOffMessage_isSome, runningPodFailureMessage_isSome]

/-- C1 (amended): `arePodsFailingStatuses` returns true — and then sets
phase=Error with the ready condition message copied from an offending
status — exactly when some pending pod is Unschedulable, or some pending
pod has a container waiting in `ImagePullBackOff`, or some non-terminating
running pod has a container waiting in `CrashLoopBackOff` or terminated
with reason `Error`; otherwise it returns false and leaves the Integration
untouched.  (The claim as frozen lets all three container reasons fire on
both pod lists; the code checks `ImagePullBackOff` only on pending pods
and `CrashLoopBackOff`/terminated-`Error` only on running ones.) -/
theorem arePodsFailingStatuses_classification (i : Integration)
    (pending running : List Pod) :
    ((arePodsFailingStatuses i pending running).1 = true ↔ podsFatalSignal pending running)
    ∧ ((arePodsFailingStatuses i pending running).1 = false →
        (arePodsFailingStatuses i pending running).2 = i)
    ∧ ((arePodsFailingStatuses i pending running).1 = true →
        ∃ msg, (arePodsFailingStatuses i pending running).2 =
            Integration.setReadyConditionError
              { i with status := { i.status with phase := integrationPhaseError } } msg
          ∧ ((∃ p ∈ pending, unschedulableMessage p = some msg)
              ∨ (∃ p ∈ pending, imagePullBackOffMessage p = some msg)
              ∨ (∃ p ∈ running, runningPodFailureMessage p = some msg))) := by
  unfold arePodsFailingStatuses
  cases h1 : pending.findSome? unschedulableMessage with
  | some msg =>
    refine ⟨iff_of_true rfl ?_, ?_, ?_⟩
    · exact (podsFatalSignal_iff pending running).mpr (Or.inl (by rw [h1]; rfl))
    · intro hf; simp at hf
    · intro _
      exact ⟨msg, rfl, Or.inl (List.exists_of_findSome?_eq_some h1)⟩
  | none =>
    cases h2 : pending.findSome? imagePullBackOffMessage with
    | some msg =>
      refine ⟨iff_of_true rfl ?_, ?_, ?_⟩
      · exact (podsFatalSignal_iff pending running).mpr (Or.inr (Or.inl (by rw [h2]; rfl)))
      · intro hf; simp at hf
      · intro _
        exact ⟨msg, rfl, Or.inr (Or.inl (List.exists_of_findSome?_eq_some h2))⟩
    | none =>
      cases h3 : running.findSome? runningPodFailureMessage with
      | some msg =>
        refine ⟨iff_of_true rfl ?_, ?_, ?_⟩
        · exact (podsFatalSignal_iff pending running).mpr
            (Or.inr (Or.inr (by rw [h3]; rfl)))
        · intro hf; simp at hf
        · intro _
          exact ⟨msg, rfl, Or.inr (Or.inr (List.exists_of_findSome?_eq_some h3))⟩
      | none =>
        refine ⟨iff_of_false (by simp) ?_, fun _ => rfl, ?_⟩
        · rw [podsFatalSignal_iff]
          simp [h1, h2, h3]
        · intro ht; simp at ht

/-- C1 (counterexample to the claim as frozen): a pending pod whose only
failure signal is a container waiting in `CrashLoopBackOff` — a case the
claim declares fatal for "any pod, pending or non-terminating running" —
yet the scan returns false and leaves the Integration unchanged. -/
theorem arePodsFailingStatuses_cex :
    ((crashLoopPendingPod.initContainerStatuses
        ++ crashLoopPendingPod.containerStatuses).any
      (fun cs =>
        match cs.state.waiting with
        | some w => w.reason == "CrashLoopBackOff"
        | none => false) = true)
    ∧ arePodsFailingStatuses sampleIntegration [crashLoopPendingPod] [] =
        (false, sampleIntegration) :=
  ⟨rfl, rfl⟩

theorem arePodsFailingStatuses_classification_holds :
    (arePodsFailingStatuses sampleIntegration [unschedulablePod] []).1 = true :=
  (arePodsFailingStatuses_classification sampleIntegration [unschedulablePod] []).1.mpr
    (Or.inl ⟨unschedulablePod, by simp,
      ⟨{ type := "PodScheduled", status := "False", reason := "Unschedulable",
         message := "0/3 nodes are available" }, rfl, rfl, rfl⟩⟩)

/-! ## C7: digest no-op -/

/-- C7: for every Integration whose stored status digest equals the digest
freshly computed over its spec and watched resource versions,
`checkDigestAndRebuild` returns `(nil, nil)` and leaves the Integration
unchanged: no status reset, no kit-reference change, no digest update. -/
theorem checkDigestAndRebuild_noop (d : Except String String) (i : Integration)
    (kit : Option IntegrationKit) (h : d = .ok i.status.digest) :
    checkDigestAndRebuild d i kit = (none, none) := by
  subst h
  simp [checkDigestAndRebuild]

theorem checkDigestAndRebuild_noop_holds :
    checkDigestAndRebuild (.ok "d0") sampleIntegration none = (none, none) :=
  checkDigestAndRebuild_noop (.ok "d0") sampleIntegration none rfl

/-! ## C8 and C10: missing integration label on the workload template -/

/-- The guidance message of monitor.go 155-158. -/
def missingLabelMessage (integrationName controllerName : String) : String :=
  "Could not find `camel.apache.org/integration: " ++ integrationName
    ++ "` label in the " ++ controllerName
    ++ " template. Make sure to include this label in the template for Pod monitoring purposes."

/-- The condition monitorPods sets when the template label is missing. -/
def missingLabelCondition (integrationName controllerName : String) : IntegrationCondition :=
  { type := integrationConditionReady,
    status := conditionFalse,
    reason := integrationConditionMonitoringPodsAvailableReason,
    message := missingLabelMessage integrationName controllerName,
    pods := [] }

/-- C8: when the resolved workload controller's pod template lacks the
integration-identifying label, `monitorPods` sets the ready condition to
false with the monitoring-unavailable reason and a guidance message naming
the controller kind, and returns the Integration with a nil error. -/
theorem monitorPods_missingLabel (ctrl : Controller) (cn : String)
    (proxy : Pod → ProbeOutcome) (i : Integration) (pending running : List Pod)
    (h : ctrl.hasTemplateIntegrationLabel = false) :
    ∃ i', monitorPods ctrl cn proxy i pending running = .ok i'
      ∧ i'.status.getCondition integrationConditionReady =
          some (missingLabelCondition i.name ctrl.controllerName) := by
  refine ⟨{ i with status := i.status.setCondition (missingLabelCondition i.name ctrl.controllerName) }, ?_, ?_⟩
  · unfold monitorPods
    rw [h]
    rfl
  · simpa using getCondition_setCondition i.status
      (missingLabelCondition i.name ctrl.controllerName)

theorem monitorPods_missingLabel_holds :
    ∃ i', monitorPods unlabeledController "integration" quietProxy
        sampleIntegration [] [] = .ok i'
      ∧ i'.status.getCondition integrationConditionReady =
          some (missingLabelCondition sampleIntegration.name
            unlabeledController.controllerName) :=
  monitorPods_missingLabel unlabeledController "integration" quietProxy
    sampleIntegration [] [] rfl

/-- C10: when the workload template lacks the integration label,
`monitorPods` modifies only the conditions: `status.Selector`,
`status.Replicas` and `status.Phase` are left unchanged. -/
theorem monitorPods_missingLabel_frame (ctrl : Controller) (cn : String)
    (proxy : Pod → ProbeOutcome) (i : Integration) (pending running : List Pod)
    (h : ctrl.hasTemplateIntegrationLabel = false) :
    ∃ i', monitorPods ctrl cn proxy i pending running = .ok i'
      ∧ i'.status.selector = i.status.selector
      ∧ i'.status.replicas = i.status.replicas
      ∧ i'.status.phase = i.status.phase
      ∧ i' = { i with status := { i.status with conditions := i'.status.conditions } } := by
  refine ⟨{ i with status := i.status.setCondition (missingLabelCondition i.name ctrl.controllerName) }, ?_, ?_, ?_, ?_, ?_⟩
  · unfold monitorPods
    rw [h]
    rfl
  · rw [setCondition_only_conditions]
  · rw [setCondition_only_conditions]
  · rw [setCondition_only_conditions]
  · conv_lhs => rw [setCondition_only_conditions]

theorem monitorPods_missingLabel_frame_holds :
    ∃ i', monitorPods unlabeledController "integration" quietProxy
        sampleIntegration [] [readyPod] = .ok i'
      ∧ i'.status.selector = sampleIntegration.status.selector
      ∧ i'.status.replicas = sampleIntegration.status.replicas
      ∧ i'.status.phase = sampleIntegration.status.phase
      ∧ i' = { sampleIntegration with status :=
          { sampleIntegration.status with conditions := i'.status.conditions } } :=
  monitorPods_missingLabel_frame unlabeledController "integration" quietProxy
    sampleIntegration [] [readyPod] rfl

/-! ## Probe evaluation lemmas -/

theorem probeLoop_singleton (cn : String) (proxy : Pod → ProbeOutcome)
    (p : Pod) (st st1 : ProbeState)
    (h : probeStep cn proxy p st = .next st1) :
    probeLoop cn proxy [p] st = .done st1 := by
  unfold probeLoop
  rw [h]
  rfl

theorem probeStep_readyPod (cn : String) (proxy : Pod → ProbeOutcome)
    (p : Pod) (st : ProbeState) (c : PodCondition)
    (hc : getPodCondition p "Ready" = some c) (hcs : c.status = conditionTrue) :
    probeStep cn proxy p st = .next { st with
      entries := st.entries ++ [podEntry p], readyPods := st.readyPods + 1 } := by
  unfold probeStep
  rw [hc]
  dsimp only
  rw [if_pos (by simp [hcs])]

theorem podEntry_of_ready {p : Pod} {c : PodCondition}
    (hc : getPodCondition p "Ready" = some c) :
    podEntry p = { name := p.name, condition := c, health := [] } := by
  unfold podEntry
  rw [hc]
  rfl

/-- Evaluation of one probe step on a non-ready pod whose probe call
exceeded the deadline. -/
theorem probeStep_deadline (cn : String) (proxy : Pod → ProbeOutcome)
    (p : Pod) (c : PodCondition) (ct : Container)
    (hc : getPodCondition p "Ready" = some c) (hcs : ¬ c.status = conditionTrue)
    (hct : getIntegrationContainer cn p = some ct)
    (hprobe : ct.readinessProbeHTTPGet = true)
    (hproxy : proxy p = .deadlineExceeded) :
    probeStep cn proxy p ProbeState.initial =
      .next (oneUnreadyState (timeoutEntry p c) false) := by
  unfold probeStep
  rw [hc]
  dsimp only
  rw [if_neg (by simp [hcs])]
  rw [hct]
  dsimp only
  rw [if_pos hprobe, hproxy]
  dsimp only
  rw [podEntry_of_ready hc]
  rfl

/-- Evaluation of one probe step, from any loop state, on a non-ready pod
whose probe answered 503 with a body holding at least one DOWN check:
the DOWN entry is appended and both runtime flags flip. -/
theorem probeStep_down (cn : String) (proxy : Pod → ProbeOutcome)
    (p : Pod) (c : PodCondition) (ct : Container)
    (health : HealthCheckResponse) (st : ProbeState)
    (hc : getPodCondition p "Ready" = some c) (hcs : ¬ c.status = conditionTrue)
    (hct : getIntegrationContainer cn p = some ct)
    (hprobe : ct.readinessProbeHTTPGet = true)
    (hproxy : proxy p = .serviceUnavailable (.ok health))
    (hne : (health.checks.filter
      (fun check => !(check.status == healthCheckStatusUp))).isEmpty = false) :
    probeStep cn proxy p st = .next { st with
      entries := st.entries ++ [downEntry p c health],
      unreadyPods := st.unreadyPods + 1,
      runtimeReady := false, runtimeFailed := true } := by
  unfold probeStep
  rw [hc]
  dsimp only
  rw [if_neg (by simp [hcs])]
  rw [hct]
  dsimp only
  rw [if_pos hprobe, hproxy]
  dsimp only
  rw [podEntry_of_ready hc, hne]
  rfl

/-- Whenever a probe step hands a state to the next iteration, it only
appends to the entries, never resets `runtimeFailed` to false, and never
resets `runtimeReady` to true. -/
theorem probeStep_mono (cn : String) (proxy : Pod → ProbeOutcome)
    (q : Pod) (st st' : ProbeState)
    (h : probeStep cn proxy q st = .next st') :
    (∀ e ∈ st.entries, e ∈ st'.entries)
    ∧ (st.runtimeFailed = true → st'.runtimeFailed = true)
    ∧ (st.runtimeReady = false → st'.runtimeReady = false) := by
  unfold probeStep at h
  split at h
  · cases h
  · split at h
    · cases h
      exact ⟨fun e he => List.mem_append.mpr (Or.inl he), fun hf => hf, fun hr => hr⟩
    · split at h
      · cases h
      · split at h
        · split at h
          · cases h
            exact ⟨fun e he => List.mem_append.mpr (Or.inl he), fun hf => hf, fun hr => hr⟩
          · cases h
            exact ⟨fun e he => List.mem_append.mpr (Or.inl he), fun hf => hf, fun _ => rfl⟩
          · cases h
            exact ⟨fun e he => List.mem_append.mpr (Or.inl he), fun hf => hf, fun _ => rfl⟩
          · split at h
            · cases h
            · cases h
              refine ⟨fun e he => List.mem_append.mpr (Or.inl he), fun hf => ?_, fun hr => ?_⟩
              · dsimp only
                split
                · exact hf
                · rfl
              · dsimp only
                split
                · exact hr
                · rfl
        · cases h
          exact ⟨fun e he => List.mem_append.mpr (Or.inl he), fun hf => hf, fun hr => hr⟩

/-- A pod satisfying `stepCompletes` always hands a state to the next
iteration. -/
theorem probeStep_next_of_completes (cn : String) (proxy : Pod → ProbeOutcome)
    (q : Pod) (st : ProbeState)
    (hq : stepCompletes cn proxy q = true) :
    ∃ st', probeStep cn proxy q st = .next st' := by
  unfold stepCompletes at hq
  unfold probeStep
  cases hc : getPodCondition q "Ready" with
  | none => rw [hc] at hq; cases hq
  | some c =>
    rw [hc] at hq
    dsimp only at hq ⊢
    by_cases hcs : (c.status == conditionTrue) = true
    · rw [if_pos hcs]
      exact ⟨_, rfl⟩
    · rw [if_neg hcs] at hq ⊢
      cases hct : getIntegrationContainer cn q with
      | none => rw [hct] at hq; cases hq
      | some ct =>
        rw [hct] at hq
        dsimp only at hq ⊢
        by_cases hpr : ct.readinessProbeHTTPGet = true
        · rw [if_pos hpr] at hq ⊢
          cases hpo : proxy q with
          | noError => exact ⟨_, rfl⟩
          | deadlineExceeded => exact ⟨_, rfl⟩
          | otherError m => exact ⟨_, rfl⟩
          | serviceUnavailable parsed =>
            rw [hpo] at hq
            cases parsed with
            | error e => cases hq
            | ok health => exact ⟨_, rfl⟩
        · rw [if_neg hpr]
          exact ⟨_, rfl⟩

/-- Running the loop over a block of pods that all complete reaches the
end of the block, preserving entries and the one-way runtime flags. -/
theorem probeLoop_all_completes (cn : String) (proxy : Pod → ProbeOutcome)
    (l : List Pod) (st : ProbeState)
    (hall : ∀ q ∈ l, stepCompletes cn proxy q = true) :
    ∃ st', probeLoop cn proxy l st = .done st'
      ∧ (∀ e ∈ st.entries, e ∈ st'.entries)
      ∧ (st.runtimeFailed = true → st'.runtimeFailed = true)
      ∧ (st.runtimeReady = false → st'.runtimeReady = false) := by
  induction l generalizing st with
  | nil => exact ⟨st, rfl, fun e he => he, fun hf => hf, fun hr => hr⟩
  | cons q rest ih =>
    obtain ⟨st1, hq⟩ := probeStep_next_of_completes cn proxy q st
      (hall q (List.mem_cons_self q rest))
    obtain ⟨me, mf, mr⟩ := probeStep_mono cn proxy q st st1 hq
    obtain ⟨st', hrest, me2, mf2, mr2⟩ := ih st1
      (fun q2 hq2 => hall q2 (List.mem_cons_of_mem q hq2))
    refine ⟨st', ?_, fun e he => me2 e (me e he), fun hf => mf2 (mf hf),
      fun hr => mr2 (mr hr)⟩
    unfold probeLoop
    rw [hq]
    exact hrest

/-- Running the loop over `l1 ++ rest` with every pod of `l1` completing
equals running it over `rest` from some intermediate state, with entries
and the one-way runtime flags preserved up to that state. -/
theorem probeLoop_split (cn : String) (proxy : Pod → ProbeOutcome)
    (l1 rest : List Pod) (st : ProbeState)
    (hall : ∀ q ∈ l1, stepCompletes cn proxy q = true) :
    ∃ st1, probeLoop cn proxy (l1 ++ rest) st = probeLoop cn proxy rest st1
      ∧ (∀ e ∈ st.entries, e ∈ st1.entries)
      ∧ (st.runtimeFailed = true → st1.runtimeFailed = true)
      ∧ (st.runtimeReady = false → st1.runtimeReady = false) := by
  induction l1 generalizing st with
  | nil => exact ⟨st, rfl, fun e he => he, fun hf => hf, fun hr => hr⟩
  | cons q l ih =>
    obtain ⟨stq, hq⟩ := probeStep_next_of_completes cn proxy q st
      (hall q (List.mem_cons_self q l))
    obtain ⟨me, mf, mr⟩ := probeStep_mono cn proxy q st stq hq
    obtain ⟨st1, hrec, me2, mf2, mr2⟩ := ih stq
      (fun q2 hq2 => hall q2 (List.mem_cons_of_mem q hq2))
    refine ⟨st1, ?_, fun e he => me2 e (me e he), fun hf => mf2 (mf hf),
      fun hr => mr2 (mr hr)⟩
    rw [List.cons_append]
    simp only [probeLoop]
    rw [hq]
    exact hrec

/-- When the loop completes with both a runtime failure and runtime not
ready, `probeReadiness` returns `probeOk = false` and the Integration with
the ready condition overwritten to runtime-not-ready over the collected
per-pod entries. -/
theorem probeReadiness_of_done_failed (cn : String) (proxy : Pod → ProbeOutcome)
    (i : Integration) (pods : List Pod) (st : ProbeState)
    (hl : probeLoop cn proxy pods ProbeState.initial = .done st)
    (hf : st.runtimeFailed = true) (hr : st.runtimeReady = false) :
    probeReadiness cn proxy i pods = .ok st.readyPods false (failedReadySet i st) st := by
  unfold probeReadiness
  rw [hl]
  dsimp only
  rw [hf, hr]
  simp only [notReadyMsg, failedReadySet]
  rfl

/-- The ready condition of `failedReadySet` is the runtime-not-ready one
over the collected per-pod entries. -/
theorem failedReadySet_getCondition (i : Integration) (st : ProbeState) :
    (failedReadySet i st).status.getCondition integrationConditionReady = some
      { type := integrationConditionReady, status := conditionFalse,
        reason := integrationConditionRuntimeNotReadyReason,
        message := notReadyMsg st, pods := st.entries } :=
  getCondition_setCondition
    (i.status.setCondition
      { type := integrationConditionReady, status := conditionFalse,
        reason := integrationConditionErrorReason,
        message := notReadyMsg st, pods := st.entries })
    { type := integrationConditionReady, status := conditionFalse,
      reason := integrationConditionRuntimeNotReadyReason,
      message := notReadyMsg st, pods := st.entries }

/-! ## C9: totality of probeReadiness under the PodReady precondition -/

theorem probeStep_no_panic (cn : String) (proxy : Pod → ProbeOutcome)
    (pod : Pod) (st : ProbeState)
    (h : (getPodCondition pod "Ready").isSome = true) :
    probeStep cn proxy pod st ≠ .panic := by
  unfold probeStep
  cases hc : getPodCondition pod "Ready" with
  | none => rw [hc] at h; simp at h
  | some c =>
    dsimp only
    intro hcon
    split at hcon
    · cases hcon
    · split at hcon
      · cases hcon
      · split at hcon
        · split at hcon
          · cases hcon
          · cases hcon
          · cases hcon
          · split at hcon
            · cases hcon
            · cases hcon
        · cases hcon

theorem probeLoop_no_panic (cn : String) (proxy : Pod → ProbeOutcome)
    (pods : List Pod) (st : ProbeState)
    (h : ∀ p ∈ pods, (getPodCondition p "Ready").isSome = true) :
    probeLoop cn proxy pods st ≠ .panic := by
  induction pods generalizing st with
  | nil =>
    unfold probeLoop
    simp
  | cons pod rest ih =>
    unfold probeLoop
    cases hs : probeStep cn proxy pod st with
    | panic =>
      exact absurd hs (probeStep_no_panic cn proxy pod st
        (h pod (List.mem_cons_self pod rest)))
    | fail rp msg => simp
    | next st1 =>
      exact ih st1 (fun p hp => h p (List.mem_cons_of_mem pod hp))

/-- C9: `probeReadiness` is total once every input pod carries a
`PodReady` condition: the unguarded dereference at the ready check
(monitor.go 495) is then unreachable.  The precondition is genuinely
required — `GetPodCondition` returns nil for a pod without the condition
and its `.Status` field is read without a guard. -/
theorem probeReadiness_total (cn : String) (proxy : Pod → ProbeOutcome)
    (i : Integration) (pods : List Pod)
    (h : ∀ p ∈ pods, (getPodCondition p "Ready").isSome = true) :
    probeReadiness cn proxy i pods ≠ .panic := by
  unfold probeReadiness
  cases hl : probeLoop cn proxy pods ProbeState.initial with
  | panic => exact absurd hl (probeLoop_no_panic cn proxy pods ProbeState.initial h)
  | fail rp msg => simp
  | done st =>
    dsimp only
    intro hcon
    cases hcon

theorem probeReadiness_total_holds :
    probeReadiness "integration" quietProxy sampleIntegration [readyPod]
      ≠ ProbeResult.panic :=
  probeReadiness_total "integration" quietProxy sampleIntegration [readyPod]
    (by intro p hp; rw [List.mem_singleton.mp hp]; rfl)

/-! ## C5: deadline-exceeded probe -/

/-- C5: for a non-ready pod whose probe call fails with context deadline
exceeded, `probeReadiness` records a timeout message on that pod's
condition, leaves `runtimeFailed` false, and returns `probeOk = false`
with the ready condition set false for the runtime-not-ready reason
rather than the error reason. -/
theorem probeReadiness_deadline (cn : String) (proxy : Pod → ProbeOutcome)
    (i : Integration) (p : Pod) (c : PodCondition) (ct : Container)
    (hc : getPodCondition p "Ready" = some c) (hcs : ¬ c.status = conditionTrue)
    (hct : getIntegrationContainer cn p = some ct)
    (hprobe : ct.readinessProbeHTTPGet = true)
    (hproxy : proxy p = .deadlineExceeded) :
    ∃ i' st, probeReadiness cn proxy i [p] = .ok 0 false i' st
      ∧ st.runtimeFailed = false
      ∧ (i'.status.getCondition integrationConditionReady).map
          (fun x => x.reason) = some integrationConditionRuntimeNotReadyReason
      ∧ ∃ e, st.entries = [e]
          ∧ e.condition.message =
              "readiness probe timed out for Pod " ++ p.namespaceName ++ "/" ++ p.name := by
  have hstep := probeStep_deadline cn proxy p c ct hc hcs hct hprobe hproxy
  have heq : probeReadiness cn proxy i [p] = .ok 0 false
      (oneUnreadySet i integrationConditionRuntimeNotReadyReason (timeoutEntry p c))
      (oneUnreadyState (timeoutEntry p c) false) := by
    unfold probeReadiness
    rw [probeLoop_singleton cn proxy p ProbeState.initial _ hstep]
    simp only [oneUnreadyState, oneUnreadySet, oneUnreadyCondition]
    rfl
  refine ⟨_, _, heq, rfl, ?_, ⟨timeoutEntry p c, rfl, rfl⟩⟩
  have hg : (oneUnreadySet i integrationConditionRuntimeNotReadyReason
        (timeoutEntry p c)).status.getCondition integrationConditionReady = some
      (oneUnreadyCondition integrationConditionRuntimeNotReadyReason
        (timeoutEntry p c)) :=
    getCondition_setCondition i.status _
  rw [hg]
  rfl

/-! ## C2: 503 with a DOWN check -/

/-- C2 (counterexample to the claim as frozen): one non-ready pod whose
probe answers 503 with a DOWN check — `probeOk` is false and the check
detail is recorded, but the final ready condition carries the
runtime-not-ready reason, not the error reason: the `runtimeFailed` block
(monitor.go 576-582) is immediately overwritten by the `!runtimeReady`
block (583-589), which always fires with it. -/
theorem probeReadiness_down_cex :
    (probeReadiness "integration" downCheckProxy sampleIntegration
        [unreadyProbedPod]).probeOkOf = some false
    ∧ ((probeReadiness "integration" downCheckProxy sampleIntegration
        [unreadyProbedPod]).integrationOf.bind
          (fun i => i.status.getCondition integrationConditionReady)).map
        (fun x => x.reason) = some integrationConditionRuntimeNotReadyReason
    ∧ integrationConditionRuntimeNotReadyReason ≠ integrationConditionErrorReason
    ∧ ((probeReadiness "integration" downCheckProxy sampleIntegration
        [unreadyProbedPod]).integrationOf.bind
          (fun i => i.status.getCondition integrationConditionReady)).map
        (fun x => x.pods.map (fun e => e.health)) =
      some [[{ name := "x", status := "DOWN" }]] :=
  ⟨rfl, rfl, by decide, rfl⟩

/-- C2 (amended): for every pod list containing a non-ready pod whose
probe answers 503 with a body holding a DOWN check — provided the probe
pass completes for every pod of the list (each pod carries a `PodReady`
condition, and each non-ready pod has the integration container and a
parseable 503 body when probed; otherwise the code panics or returns an
error before writing the condition) — `probeReadiness` returns
`probeOk = false`, sets `runtimeFailed`, records the down check's detail
against that pod's entry in the per-pod list of the ready condition, and
sets the ready condition false with the runtime-not-ready reason: the
error-reason condition written by the `runtimeFailed` block is overwritten
by the `!runtimeReady` block that always accompanies it. -/
theorem probeReadiness_downCheck (cn : String) (proxy : Pod → ProbeOutcome)
    (i : Integration) (pods : List Pod) (p : Pod) (c : PodCondition)
    (ct : Container) (health : HealthCheckResponse) (ch : HealthCheck)
    (hmem : p ∈ pods)
    (hall : ∀ q ∈ pods, stepCompletes cn proxy q = true)
    (hc : getPodCondition p "Ready" = some c) (hcs : ¬ c.status = conditionTrue)
    (hct : getIntegrationContainer cn p = some ct)
    (hprobe : ct.readinessProbeHTTPGet = true)
    (hproxy : proxy p = .serviceUnavailable (.ok health))
    (hch : ch ∈ health.checks) (hdown : ¬ ch.status = healthCheckStatusUp) :
    ∃ rp i' st, probeReadiness cn proxy i pods = .ok rp false i' st
      ∧ st.runtimeFailed = true
      ∧ ∃ cond, i'.status.getCondition integrationConditionReady = some cond
          ∧ cond.status = conditionFalse
          ∧ cond.reason = integrationConditionRuntimeNotReadyReason
          ∧ ∃ e ∈ cond.pods, e.name = p.name ∧ ch ∈ e.health := by
  have hmemf : ch ∈ health.checks.filter
      (fun check => !(check.status == healthCheckStatusUp)) :=
    List.mem_filter.mpr ⟨hch, by simp [hdown]⟩
  have hne : (health.checks.filter
      (fun check => !(check.status == healthCheckStatusUp))).isEmpty = false := by
    cases hfe : health.checks.filter
        (fun check => !(check.status == healthCheckStatusUp)) with
    | nil => rw [hfe] at hmemf; cases hmemf
    | cons a l => rfl
  obtain ⟨l1, l2, rfl⟩ := List.append_of_mem hmem
  have hall1 : ∀ q ∈ l1, stepCompletes cn proxy q = true :=
    fun q hq => hall q (List.mem_append.mpr (Or.inl hq))
  have hall2 : ∀ q ∈ l2, stepCompletes cn proxy q = true :=
    fun q hq => hall q (List.mem_append.mpr (Or.inr (List.mem_cons_of_mem p hq)))
  obtain ⟨st1, hsplit, me1, mf1, mr1⟩ :=
    probeLoop_split cn proxy l1 (p :: l2) ProbeState.initial hall1
  have hstep := probeStep_down cn proxy p c ct health st1 hc hcs hct hprobe hproxy hne
  have hcons : probeLoop cn proxy (p :: l2) st1 = probeLoop cn proxy l2
      { st1 with
        entries := st1.entries ++ [downEntry p c health],
        unreadyPods := st1.unreadyPods + 1,
        runtimeReady := false, runtimeFailed := true } := by
    simp only [probeLoop]
    rw [hstep]
  obtain ⟨st3, hdone, me2, mf2, mr2⟩ := probeLoop_all_completes cn proxy l2
    { st1 with
      entries := st1.entries ++ [downEntry p c health],
      unreadyPods := st1.unreadyPods + 1,
      runtimeReady := false, runtimeFailed := true } hall2
  have hfl : probeLoop cn proxy (l1 ++ p :: l2) ProbeState.initial = .done st3 := by
    rw [hsplit, hcons, hdone]
  have hf3 : st3.runtimeFailed = true := mf2 rfl
  have hr3 : st3.runtimeReady = false := mr2 rfl
  have hpr := probeReadiness_of_done_failed cn proxy i (l1 ++ p :: l2) st3 hfl hf3 hr3
  refine ⟨st3.readyPods, failedReadySet i st3, st3, hpr, hf3,
    _, failedReadySet_getCondition i st3, rfl, rfl, ?_⟩
  refine ⟨downEntry p c health, ?_, rfl, hmemf⟩
  exact me2 _ (List.mem_append.mpr (Or.inr (List.mem_singleton.mpr rfl)))

theorem probeReadiness_deadline_holds :
    ∃ i' st, probeReadiness "integration" deadlineProxy sampleIntegration
        [unreadyProbedPod] = .ok 0 false i' st
      ∧ st.runtimeFailed = false
      ∧ ((i'.status.getCondition integrationConditionReady).map (fun x => x.reason)
          = some integrationConditionRuntimeNotReadyReason)
      ∧ ∃ e, st.entries = [e]
          ∧ e.condition.message = "readiness probe timed out for Pod "
              ++ unreadyProbedPod.namespaceName ++ "/" ++ unreadyProbedPod.name :=
  probeReadiness_deadline "integration" deadlineProxy sampleIntegration
    unreadyProbedPod
    { type := "Ready", status := "False", reason := "", message := "" }
    { name := "integration", readinessProbeHTTPGet := true }
    rfl (by decide) rfl rfl rfl

theorem probeReadiness_downCheck_holds :
    ∃ rp i' st, probeReadiness "integration" downCheckProxy sampleIntegration
        [unreadyProbedPod] = .ok rp false i' st
      ∧ st.runtimeFailed = true
      ∧ ∃ cond, i'.status.getCondition integrationConditionReady = some cond
          ∧ cond.status = conditionFalse
          ∧ cond.reason = integrationConditionRuntimeNotReadyReason
          ∧ ∃ e ∈ cond.pods, e.name = unreadyProbedPod.name
              ∧ ({ name := "x", status := "DOWN" } : HealthCheck) ∈ e.health :=
  probeReadiness_downCheck "integration" downCheckProxy sampleIntegration
    [unreadyProbedPod] unreadyProbedPod
    { type := "Ready", status := "False", reason := "", message := "" }
    { name := "integration", readinessProbeHTTPGet := true }
    { status := "DOWN", checks := [{ name := "x", status := "DOWN" }] }
    { name := "x", status := "DOWN" }
    (List.mem_singleton.mpr rfl)
    (by intro q hq; rw [List.mem_singleton.mp hq]; rfl)
    rfl (by decide) rfl rfl rfl (List.mem_singleton.mpr rfl) (by decide)

/-! ## C6: optimistic Deploying-to-Running advance -/

/-- C6: an Integration in phase Deploying is advanced to Running during
pod monitoring: with zero pending pods, one running pod whose `PodReady`
condition is true (and no failing container signal), and a controller
whose `updateReadyCondition 1` is true, the pass completes with phase
Running and no error. -/
theorem monitorPods_deploying_to_running (ctrl : Controller) (cn : String)
    (proxy : Pod → ProbeOutcome) (i : Integration) (p : Pod) (c : PodCondition)
    (hphase : i.status.phase = integrationPhaseDeploying)
    (hlabel : ctrl.hasTemplateIntegrationLabel = true)
    (hcheck : ctrl.checkReadyCondition = (false, none))
    (hupd : ctrl.updateReadyCondition 1 = true)
    (hdel : p.deletionTimestamp = none)
    (hc : getPodCondition p "Ready" = some c) (hcs : c.status = conditionTrue)
    (hfail : runningPodFailureMessage p = none) :
    ∃ i2, monitorPods ctrl cn proxy i [] [p] = .ok i2
      ∧ i2.status.phase = integrationPhaseRunning := by
  have hmon : monitorPods ctrl cn proxy i [] [p] =
      updateIntegrationPhaseAndReadyCondition ctrl cn proxy
        { i with status := { i.status with
            selector := integrationLabel ++ "=" ++ i.name,
            replicas := some 1,
            phase := integrationPhaseRunning } } [] [p] := by
    unfold monitorPods
    rw [hlabel]
    dsimp only
    simp [hdel, hphase, List.filter]
  have hfailing : arePodsFailingStatuses
      { i with status := { i.status with
          selector := integrationLabel ++ "=" ++ i.name,
          replicas := some 1,
          phase := integrationPhaseRunning } } [] [p] = (false,
      { i with status := { i.status with
          selector := integrationLabel ++ "=" ++ i.name,
          replicas := some 1,
          phase := integrationPhaseRunning } }) := by
    unfold arePodsFailingStatuses
    simp [List.findSome?, hfail]
  have hstep := probeStep_readyPod cn proxy p ProbeState.initial c hc hcs
  have hprobe2 : probeReadiness cn proxy
      { i with status := { i.status with
          selector := integrationLabel ++ "=" ++ i.name,
          replicas := some 1,
          phase := integrationPhaseRunning } } [p] = .ok 1 true
      { i with status := { i.status with
          selector := integrationLabel ++ "=" ++ i.name,
          replicas := some 1,
          phase := integrationPhaseRunning } }
      { entries := [podEntry p], readyPods := 1, unreadyPods := 0,
        runtimeReady := true, runtimeFailed := false } := by
    unfold probeReadiness
    rw [probeLoop_singleton cn proxy p ProbeState.initial _ hstep]
    rfl
  have hupdate : updateIntegrationPhaseAndReadyCondition ctrl cn proxy
      { i with status := { i.status with
          selector := integrationLabel ++ "=" ++ i.name,
          replicas := some 1,
          phase := integrationPhaseRunning } } [] [p] = .ok
      { i with status := { i.status with
          selector := integrationLabel ++ "=" ++ i.name,
          replicas := some 1,
          phase := integrationPhaseRunning } } := by
    unfold updateIntegrationPhaseAndReadyCondition
    rw [hcheck]
    dsimp only
    rw [hfailing]
    dsimp only
    rw [hprobe2]
    dsimp only
    rw [if_pos hupd]
    simp
  exact ⟨_, hmon.trans hupdate, rfl⟩

theorem monitorPods_deploying_to_running_holds :
    ∃ i2, monitorPods deployController "integration" quietProxy
        deployingIntegration [] [readyPod] = .ok i2
      ∧ i2.status.phase = integrationPhaseRunning :=
  monitorPods_deploying_to_running deployController "integration" quietProxy
    deployingIntegration readyPod
    { type := "Ready", status := "True", reason := "", message := "" }
    rfl rfl rfl rfl rfl rfl rfl rfl

/-! ## C3: kit priority selection -/

theorem findKitLoop_error_of_malformed (l : List IntegrationKit)
    (best : Option IntegrationKit) (pr : Int) (k : IntegrationKit)
    (hmem : k ∈ l) (hready : k.phase = integrationKitPhaseReady)
    (hbad : atoi? k.priorityString = none) :
    ∃ e, findKitLoop l best pr = .error e := by
  induction l generalizing best pr with
  | nil => cases hmem
  | cons a rest ih =>
    unfold findKitLoop
    by_cases ha : (a.phase != integrationKitPhaseReady) = true
    · rw [if_pos ha]
      rcases List.mem_cons.mp hmem with h | h
      · subst h
        simp [hready] at ha
      · exact ih best pr h
    · rw [if_neg ha]
      cases hp : atoi? a.priorityString with
      | none => exact ⟨_, rfl⟩
      | some p =>
        rcases List.mem_cons.mp hmem with h | h
        · subst h
          rw [hbad] at hp
          cases hp
        · dsimp only
          by_cases hgt : p > pr
          · rw [if_pos hgt]
            exact ih (some a) p h
          · rw [if_neg hgt]
            exact ih best pr h

theorem findKitLoop_ok_inv (l : List IntegrationKit)
    (best : Option IntegrationKit) (pr : Int) (r : Option IntegrationKit)
    (hinv : (best = none ∧ pr = 0) ∨
      (∃ k0, best = some k0 ∧ k0.phase = integrationKitPhaseReady
        ∧ atoi? k0.priorityString = some pr ∧ 0 < pr))
    (hok : findKitLoop l best pr = .ok r) :
    (r = best ∧ ∀ k ∈ l, k.phase = integrationKitPhaseReady →
        ∃ p, atoi? k.priorityString = some p ∧ p ≤ pr)
    ∨ (∃ k ∈ l, r = some k ∧ k.phase = integrationKitPhaseReady
        ∧ ∃ p, atoi? k.priorityString = some p ∧ pr < p ∧ 0 < p
          ∧ ∀ k2 ∈ l, k2.phase = integrationKitPhaseReady →
              ∃ p2, atoi? k2.priorityString = some p2 ∧ p2 ≤ p) := by
  induction l generalizing best pr with
  | nil =>
    unfold findKitLoop at hok
    cases hok
    exact Or.inl ⟨rfl, by simp⟩
  | cons a rest ih =>
    unfold findKitLoop at hok
    by_cases ha : (a.phase != integrationKitPhaseReady) = true
    · rw [if_pos ha] at hok
      have hanr : ¬ a.phase = integrationKitPhaseReady := by
        simpa using ha
      rcases ih best pr hinv hok with ⟨hr, hall⟩ | ⟨k, hk, hrk, hready, p, hp⟩
      · refine Or.inl ⟨hr, ?_⟩
        intro k hkmem hkready
        rcases List.mem_cons.mp hkmem with h | h
        · exact absurd (h ▸ hkready) hanr
        · exact hall k h hkready
      · refine Or.inr ⟨k, List.mem_cons_of_mem a hk, hrk, hready, p,
          hp.1, hp.2.1, hp.2.2.1, ?_⟩
        intro k2 hk2 hk2r
        rcases List.mem_cons.mp hk2 with h | h
        · exact absurd (h ▸ hk2r) hanr
        · exact hp.2.2.2 k2 h hk2r
    · rw [if_neg ha] at hok
      have har : a.phase = integrationKitPhaseReady := by
        simpa using ha
      cases hp : atoi? a.priorityString with
      | none =>
        rw [hp] at hok
        cases hok
      | some p =>
        rw [hp] at hok
        dsimp only at hok
        by_cases hgt : p > pr
        · rw [if_pos hgt] at hok
          have hppos : 0 < p := by
            rcases hinv with ⟨_, hpr0⟩ | ⟨k0, _, _, _, hprpos⟩
            · omega
            · omega
          have hinv2 : ((some a : Option IntegrationKit) = none ∧ p = 0) ∨
              (∃ k0, (some a : Option IntegrationKit) = some k0
                ∧ k0.phase = integrationKitPhaseReady
                ∧ atoi? k0.priorityString = some p ∧ 0 < p) :=
            Or.inr ⟨a, rfl, har, hp, hppos⟩
          rcases ih (some a) p hinv2 hok with ⟨hr, hall⟩ | ⟨k, hk, hrk, hready, q, hq⟩
          · refine Or.inr ⟨a, List.mem_cons_self a rest, hr, har, p, hp, hgt, hppos, ?_⟩
            intro k2 hk2 hk2r
            rcases List.mem_cons.mp hk2 with h | h
            · exact ⟨p, h ▸ hp, le_refl p⟩
            · exact hall k2 h hk2r
          · refine Or.inr ⟨k, List.mem_cons_of_mem a hk, hrk, hready, q,
              hq.1, by omega, by omega, ?_⟩
            intro k2 hk2 hk2r
            rcases List.mem_cons.mp hk2 with h | h
            · exact ⟨p, h ▸ hp, by omega⟩
            · exact hq.2.2.2 k2 h hk2r
        · rw [if_neg hgt] at hok
          rcases ih best pr hinv hok with ⟨hr, hall⟩ | ⟨k, hk, hrk, hready, q, hq⟩
          · refine Or.inl ⟨hr, ?_⟩
            intro k2 hk2 hk2r
            rcases List.mem_cons.mp hk2 with h | h
            · exact ⟨p, h ▸ hp, by omega⟩
            · exact hall k2 h hk2r
          · refine Or.inr ⟨k, List.mem_cons_of_mem a hk, hrk, hready, q,
              hq.1, hq.2.1, hq.2.2.1, ?_⟩
            intro k2 hk2 hk2r
            rcases List.mem_cons.mp hk2 with h | h
            · have := hq.2.1
              exact ⟨p, h ▸ hp, by omega⟩
            · exact hq.2.2.2 k2 h hk2r

/-- C3: `findHighestPriorityReadyKit` (a) yields no selection and no error
on zero candidates; (b) any selected kit is a Ready candidate whose parsed
priority is strictly positive (hence strictly above the loop's base
priority 0, the current kit's default) and maximal among the Ready
candidates, all of which parse; (c) a malformed priority label on a Ready
candidate is a fatal error; (d) on candidates with priorities [0,5,3] and
current priority 0 it selects the priority-5 kit. -/
theorem findHighestPriorityReadyKit_spec :
    (findHighestPriorityReadyKit [] = .ok none)
    ∧ (∀ kits k, findHighestPriorityReadyKit kits = .ok (some k) →
        k ∈ kits ∧ k.phase = integrationKitPhaseReady
          ∧ ∃ p, atoi? k.priorityString = some p ∧ 0 < p
            ∧ ∀ k2 ∈ kits, k2.phase = integrationKitPhaseReady →
                ∃ p2, atoi? k2.priorityString = some p2 ∧ p2 ≤ p)
    ∧ (∀ kits k, k ∈ kits → k.phase = integrationKitPhaseReady →
        atoi? k.priorityString = none →
          ∃ e, findHighestPriorityReadyKit kits = .error e)
    ∧ (findHighestPriorityReadyKit
        [readyKit "k0" "0", readyKit "k5" "5", readyKit "k3" "3"]
        = .ok (some (readyKit "k5" "5"))) := by
  refine ⟨rfl, ?_, ?_, ?_⟩
  · intro kits k hok
    have hne : kits.isEmpty = false := by
      cases kits with
      | nil => simp [findHighestPriorityReadyKit] at hok
      | cons a l => rfl
    unfold findHighestPriorityReadyKit at hok
    rw [hne] at hok
    simp only [Bool.false_eq_true, if_false] at hok
    rcases findKitLoop_ok_inv kits none 0 (some k) (Or.inl ⟨rfl, rfl⟩) hok with
      ⟨hr, _⟩ | ⟨k2, hmem, hrk, hready, p, hp, hgt, hpos, hall⟩
    · cases hr
    · cases hrk
      exact ⟨hmem, hready, p, hp, hpos, hall⟩
  · intro kits k hmem hready hbad
    have hne : kits.isEmpty = false := by
      cases kits with
      | nil => cases hmem
      | cons a l => rfl
    unfold findHighestPriorityReadyKit
    rw [hne]
    simp only [Bool.false_eq_true, if_false]
    exact findKitLoop_error_of_malformed kits none 0 k hmem hready hbad
  · rfl

theorem findHighestPriorityReadyKit_spec_holds :
    readyKit "k5" "5" ∈
        [readyKit "k0" "0", readyKit "k5" "5", readyKit "k3" "3"]
      ∧ (readyKit "k5" "5").phase = integrationKitPhaseReady :=
  let h := findHighestPriorityReadyKit_spec.2.1
    [readyKit "k0" "0", readyKit "k5" "5", readyKit "k3" "3"]
    (readyKit "k5" "5") findHighestPriorityReadyKit_spec.2.2.2
  ⟨h.1, h.2.1⟩

/-! ## C4: stable-error short-circuit (code bug) -/

/-- C4 (evaluation at the failing input): `kitFailedErrorIntegration` is in
phase Error with a false kit-available condition, and its kit is in phase
Error — the situation the comment at monitor.go 87 ("If integration is in
error and its kit is also in error then integration does not change")
says is a no-op — yet `isInIntegrationKitFailed` is false (its guard
requires phase NOT Error, monitor.go 227), so `Handle` passes the
stable-error check, performs the digest reset, and returns a changed
Integration with a nil error instead of `(nil, nil)`. -/
theorem handle_kitFailed_divergence :
    kitFailedErrorIntegration.status.phase = integrationPhaseError
    ∧ (kitFailedErrorIntegration.status.getCondition
        integrationConditionKitAvailable).map (fun c => c.status) = some conditionFalse
    ∧ errorPhaseKit.phase = integrationKitPhaseError
    ∧ isInIntegrationKitFailed kitFailedErrorIntegration.status = false
    ∧ (handle kitFailedWorld kitFailedErrorIntegration).integrationOf.isSome = true
    ∧ (handle kitFailedWorld kitFailedErrorIntegration).errOf = some none
    ∧ (handle kitFailedWorld kitFailedErrorIntegration).integrationOf.map
        (fun i => i.status.digest) = some "new"
    ∧ kitFailedErrorIntegration.status.digest = "old" :=
  ⟨rfl, rfl, rfl, rfl, rfl, rfl, rfl, rfl⟩

end CamelK
